import Mathlib

/-!
Verification of the restaurant recommendation service (Flask + Neo4j).

The Cypher queries and Python route handlers of src/main.py and
src/backend.py are shallowly embedded as pure Lean functions over an
explicit data model.  Strings are Lean strings, numeric node properties
are natural numbers, and the signed compatibility score is an integer.
Since the recommendation pipeline is a pure read-only computation over
already-fetched data, determinism is definitional in this embedding.
-/

/-- A user node together with its preference relationships, as returned by
the user queries in src/main.py (fields name, budget, tiene_mascota,
tiene_ninios, necesita_accesibilidad, desea_promociones,
cantidad_personas, PREFERS, LIKES_AMBIANCE, PREFERS_ZONE). -/
structure User where
  id : String
  name : String
  age : Nat
  budget : Nat
  has_pet : Bool
  has_children : Bool
  needs_accessibility : Bool
  wants_promotions : Bool
  group_size : Nat
  preferred_categories : List String
  preferred_ambiance : List String
  preferred_zones : List String
deriving DecidableEq

/-- A restaurant node with its relationships, as returned by the
restaurant queries in src/main.py (fields nombre, precio_promedio,
pet_friendly, juegos_ninios, accesible, promociones, capacidad,
nivel_servicio, tiempo_espera, HAS_CATEGORY, HAS_AMBIANCE, LOCATED_IN). -/
structure Restaurant where
  id : String
  name : String
  price : Nat
  pet_friendly : Bool
  kids_games : Bool
  accessible : Bool
  promotions : Bool
  capacity : Nat
  service_level : Nat
  wait_time : Nat
  categories : List String
  ambiance : List String
  zones : List String
deriving DecidableEq

/-- Category criterion of the recommendation query in
src/main.py get_recommendations: CASE WHEN
EXISTS((u)-[:PREFERS]->(:Category)<-[:HAS_CATEGORY]-(r)) THEN 2 ELSE 0. -/
def category_score (u : User) (r : Restaurant) : Int :=
  if u.preferred_categories.any (fun c => r.categories.contains c) then 2 else 0

/-- Ambiance criterion: CASE WHEN
EXISTS((u)-[:LIKES_AMBIANCE]->(:Ambiance)<-[:HAS_AMBIANCE]-(r)) THEN 2 ELSE 0. -/
def ambiance_score (u : User) (r : Restaurant) : Int :=
  if u.preferred_ambiance.any (fun a => r.ambiance.contains a) then 2 else 0

/-- Zone criterion: CASE WHEN
EXISTS((u)-[:PREFERS_ZONE]->(:Zone)<-[:LOCATED_IN]-(r)) THEN 1 ELSE 0. -/
def zone_score (u : User) (r : Restaurant) : Int :=
  if u.preferred_zones.any (fun z => r.zones.contains z) then 1 else 0

/-- Pet criterion: CASE WHEN u.tiene_mascota AND r.pet_friendly THEN 1
WHEN u.tiene_mascota = false OR r.pet_friendly THEN 0 ELSE -1. -/
def pet_score (u : User) (r : Restaurant) : Int :=
  if u.has_pet && r.pet_friendly then 1
  else if !u.has_pet || r.pet_friendly then 0
  else -1

/-- Kids criterion: CASE WHEN u.tiene_ninios AND r.juegos_ninios THEN 1
WHEN u.tiene_ninios = false OR r.juegos_ninios THEN 0 ELSE -1. -/
def kids_score (u : User) (r : Restaurant) : Int :=
  if u.has_children && r.kids_games then 1
  else if !u.has_children || r.kids_games then 0
  else -1

/-- Accessibility criterion: CASE WHEN u.necesita_accesibilidad AND
r.accesible THEN 2 WHEN u.necesita_accesibilidad = false OR r.accesible
THEN 0 ELSE -2. -/
def accessibility_score (u : User) (r : Restaurant) : Int :=
  if u.needs_accessibility && r.accessible then 2
  else if !u.needs_accessibility || r.accessible then 0
  else -2

/-- Promotions criterion: CASE WHEN u.desea_promociones AND
r.promociones THEN 1 ELSE 0. -/
def promotion_score (u : User) (r : Restaurant) : Int :=
  if u.wants_promotions && r.promotions then 1 else 0

/-- Capacity criterion: CASE WHEN r.capacidad >= u.cantidad_personas
THEN 0 ELSE -3. -/
def capacity_score (u : User) (r : Restaurant) : Int :=
  if u.group_size ≤ r.capacity then 0 else -3

/-- Total compatibility score, the sum computed by the WITH clause of the
recommendation query. -/
def total_score (u : User) (r : Restaurant) : Int :=
  category_score u r + ambiance_score u r + zone_score u r + pet_score u r +
    kids_score u r + accessibility_score u r + promotion_score u r +
    capacity_score u r

/-! Specification-side contributions, stated in the words of the scoring
table of the specification (section 4.2), to be compared with the
embedded query.  Each is written from the Condition column of the table,
not from the Cypher CASE expressions. -/

/-- Table row: user has at least one preferred category that the
restaurant also has, score +2, otherwise 0. -/
def spec_category_contribution (u : User) (r : Restaurant) : Int :=
  if ∃ c ∈ u.preferred_categories, c ∈ r.categories then 2 else 0

/-- Table row: user has at least one preferred ambiance the restaurant
also has, score +2, otherwise 0. -/
def spec_ambiance_contribution (u : User) (r : Restaurant) : Int :=
  if ∃ a ∈ u.preferred_ambiance, a ∈ r.ambiance then 2 else 0

/-- Table row: user has a preferred zone equal to the restaurant zone,
score +1, otherwise 0. -/
def spec_zone_contribution (u : User) (r : Restaurant) : Int :=
  if ∃ z ∈ u.preferred_zones, z ∈ r.zones then 1 else 0

/-- Table rows for Pet: +1 when has_pet and pet_friendly, -1 when
has_pet and not pet_friendly, 0 otherwise. -/
def spec_pet_contribution (u : User) (r : Restaurant) : Int :=
  if u.has_pet ∧ r.pet_friendly then 1
  else if u.has_pet ∧ ¬r.pet_friendly then -1
  else 0

/-- Table rows for Kids, symmetric to Pet via has_children and
kids_games. -/
def spec_kids_contribution (u : User) (r : Restaurant) : Int :=
  if u.has_children ∧ r.kids_games then 1
  else if u.has_children ∧ ¬r.kids_games then -1
  else 0

/-- Table rows for Accessibility: +2 when needs_accessibility and
accessible, -2 when needs_accessibility and not accessible, else 0. -/
def spec_accessibility_contribution (u : User) (r : Restaurant) : Int :=
  if u.needs_accessibility ∧ r.accessible then 2
  else if u.needs_accessibility ∧ ¬r.accessible then -2
  else 0

/-- Table row for Promotions: +1 when wants_promotions and restaurant
promotions, else 0. -/
def spec_promotions_contribution (u : User) (r : Restaurant) : Int :=
  if u.wants_promotions ∧ r.promotions then 1 else 0

/-- Table row for Capacity: 0 when capacity at least group_size, else -3. -/
def spec_capacity_contribution (u : User) (r : Restaurant) : Int :=
  if r.capacity ≥ u.group_size then 0 else -3

theorem category_score_eq_spec (u : User) (r : Restaurant) :
    category_score u r = spec_category_contribution u r := by
  unfold category_score spec_category_contribution
  simp [List.any_eq_true]

theorem ambiance_score_eq_spec (u : User) (r : Restaurant) :
    ambiance_score u r = spec_ambiance_contribution u r := by
  unfold ambiance_score spec_ambiance_contribution
  simp [List.any_eq_true]

theorem zone_score_eq_spec (u : User) (r : Restaurant) :
    zone_score u r = spec_zone_contribution u r := by
  unfold zone_score spec_zone_contribution
  simp [List.any_eq_true]

theorem pet_score_eq_spec (u : User) (r : Restaurant) :
    pet_score u r = spec_pet_contribution u r := by
  unfold pet_score spec_pet_contribution
  cases hp : u.has_pet <;> cases hf : r.pet_friendly <;> simp

theorem kids_score_eq_spec (u : User) (r : Restaurant) :
    kids_score u r = spec_kids_contribution u r := by
  unfold kids_score spec_kids_contribution
  cases hp : u.has_children <;> cases hf : r.kids_games <;> simp

theorem accessibility_score_eq_spec (u : User) (r : Restaurant) :
    accessibility_score u r = spec_accessibility_contribution u r := by
  unfold accessibility_score spec_accessibility_contribution
  cases hp : u.needs_accessibility <;> cases hf : r.accessible <;> simp

theorem promotion_score_eq_spec (u : User) (r : Restaurant) :
    promotion_score u r = spec_promotions_contribution u r := by
  unfold promotion_score spec_promotions_contribution
  cases hp : u.wants_promotions <;> cases hf : r.promotions <;> simp

theorem capacity_score_eq_spec (u : User) (r : Restaurant) :
    capacity_score u r = spec_capacity_contribution u r := by
  unfold capacity_score spec_capacity_contribution
  rfl

theorem category_score_bounds (u : User) (r : Restaurant) :
    0 ≤ category_score u r ∧ category_score u r ≤ 2 := by
  unfold category_score; split <;> omega

theorem ambiance_score_bounds (u : User) (r : Restaurant) :
    0 ≤ ambiance_score u r ∧ ambiance_score u r ≤ 2 := by
  unfold ambiance_score; split <;> omega

theorem zone_score_bounds (u : User) (r : Restaurant) :
    0 ≤ zone_score u r ∧ zone_score u r ≤ 1 := by
  unfold zone_score; split <;> omega

theorem pet_score_bounds (u : User) (r : Restaurant) :
    -1 ≤ pet_score u r ∧ pet_score u r ≤ 1 := by
  unfold pet_score; split
  · omega
  · split <;> omega

theorem kids_score_bounds (u : User) (r : Restaurant) :
    -1 ≤ kids_score u r ∧ kids_score u r ≤ 1 := by
  unfold kids_score; split
  · omega
  · split <;> omega

theorem accessibility_score_bounds (u : User) (r : Restaurant) :
    -2 ≤ accessibility_score u r ∧ accessibility_score u r ≤ 2 := by
  unfold accessibility_score; split
  · omega
  · split <;> omega

theorem promotion_score_bounds (u : User) (r : Restaurant) :
    0 ≤ promotion_score u r ∧ promotion_score u r ≤ 1 := by
  unfold promotion_score; split <;> omega

theorem capacity_score_bounds (u : User) (r : Restaurant) :
    -3 ≤ capacity_score u r ∧ capacity_score u r ≤ 0 := by
  unfold capacity_score; split <;> omega

/-- C1: the compatibility score equals the sum of the eight independent
contributions of the section 4.2 table, it is deterministic (equal
profiles and attributes give equal scores, which holds definitionally
for this pure function), and it always lies in the interval from -10
to 10. -/
theorem C1_score_table_deterministic_bounded (u : User) (r : Restaurant) :
    total_score u r =
      spec_category_contribution u r + spec_ambiance_contribution u r +
        spec_zone_contribution u r + spec_pet_contribution u r +
        spec_kids_contribution u r + spec_accessibility_contribution u r +
        spec_promotions_contribution u r + spec_capacity_contribution u r ∧
    (∀ u' r', u = u' → r = r' → total_score u r = total_score u' r') ∧
    -10 ≤ total_score u r ∧ total_score u r ≤ 10 := by
  refine ⟨?_, ?_, ?_, ?_⟩
  · unfold total_score
    rw [category_score_eq_spec, ambiance_score_eq_spec, zone_score_eq_spec,
      pet_score_eq_spec, kids_score_eq_spec, accessibility_score_eq_spec,
      promotion_score_eq_spec, capacity_score_eq_spec]
  · intro u' r' hu hr; rw [hu, hr]
  · unfold total_score
    have h1 := category_score_bounds u r
    have h2 := ambiance_score_bounds u r
    have h3 := zone_score_bounds u r
    have h4 := pet_score_bounds u r
    have h5 := kids_score_bounds u r
    have h6 := accessibility_score_bounds u r
    have h7 := promotion_score_bounds u r
    have h8 := capacity_score_bounds u r
    omega
  · unfold total_score
    have h1 := category_score_bounds u r
    have h2 := ambiance_score_bounds u r
    have h3 := zone_score_bounds u r
    have h4 := pet_score_bounds u r
    have h5 := kids_score_bounds u r
    have h6 := accessibility_score_bounds u r
    have h7 := promotion_score_bounds u r
    have h8 := capacity_score_bounds u r
    omega

/-- Demonstration user from the scenario table of the specification. -/
def demoUser : User :=
  { id := "u1", name := "ana", age := 30, budget := 20, has_pet := true,
    has_children := false, needs_accessibility := false,
    wants_promotions := true, group_size := 2,
    preferred_categories := ["Italian"], preferred_ambiance := [],
    preferred_zones := [] }

/-- Demonstration restaurant from the scenario table of the
specification. -/
def demoRestaurant : Restaurant :=
  { id := "r1", name := "Trattoria", price := 15, pet_friendly := true,
    kids_games := false, accessible := false, promotions := true,
    capacity := 4, service_level := 3, wait_time := 10,
    categories := ["Italian"], ambiance := [], zones := [] }

/-- Witness for C1 at the scenario input, whose score is 4. -/
theorem C1_score_table_deterministic_bounded_witness :
    total_score demoUser demoRestaurant = 4 ∧
    -10 ≤ total_score demoUser demoRestaurant ∧
    total_score demoUser demoRestaurant ≤ 10 :=
  ⟨by decide,
   (C1_score_table_deterministic_bounded demoUser demoRestaurant).2.2.1,
   (C1_score_table_deterministic_bounded demoUser demoRestaurant).2.2.2⟩

/-- C4: a user without a pet at a restaurant that is not pet friendly
gets pet contribution 0, never -1; the -1 case occurs exactly when the
user has a pet and the restaurant is not pet friendly. -/
theorem C4_pet_no_requirement_not_penalized (u : User) (r : Restaurant) :
    (u.has_pet = false → r.pet_friendly = false →
      pet_score u r = 0 ∧ pet_score u r ≠ -1) ∧
    (pet_score u r = -1 ↔ u.has_pet = true ∧ r.pet_friendly = false) := by
  unfold pet_score
  cases hp : u.has_pet <;> cases hf : r.pet_friendly <;> simp

/-- Witness for C4: a concrete user with no pet and a concrete
restaurant that is not pet friendly receive pet contribution 0. -/
theorem C4_pet_no_requirement_not_penalized_witness :
    pet_score { demoUser with has_pet := false }
        { demoRestaurant with pet_friendly := false } = 0 ∧
    pet_score { demoUser with has_pet := false }
        { demoRestaurant with pet_friendly := false } ≠ -1 :=
  (C4_pet_no_requirement_not_penalized
    { demoUser with has_pet := false }
    { demoRestaurant with pet_friendly := false }).1 rfl rfl

/-! Ranker.  The recommendation query filters on total_score >= 1, orders
by total_score DESC with price ASC as tie break, and applies LIMIT 10. -/

/-- A candidate restaurant together with its computed total score, as
carried by the WITH clause of the recommendation query. -/
structure Scored where
  restaurant : Restaurant
  score : Int
deriving DecidableEq

/-- Ordering used by ORDER BY total_score DESC, r.precio_promedio ASC:
an entry precedes another when its score is larger, or the scores are
equal and its price is at most the other price. -/
def recOrder (a b : Scored) : Prop :=
  b.score < a.score ∨ (a.score = b.score ∧ a.restaurant.price ≤ b.restaurant.price)

instance : DecidableRel recOrder := fun a b => by
  unfold recOrder; infer_instance

instance : IsTotal Scored recOrder := by
  constructor
  intro a b
  unfold recOrder
  rcases lt_trichotomy a.score b.score with h | h | h
  · right; left; exact h
  · rcases Nat.le_total a.restaurant.price b.restaurant.price with hp | hp
    · left; right; exact ⟨h, hp⟩
    · right; right; exact ⟨h.symm, hp⟩
  · left; left; exact h

instance : IsTrans Scored recOrder := by
  constructor
  intro a b c hab hbc
  unfold recOrder at *
  rcases hab with h1 | ⟨h1, h1p⟩ <;> rcases hbc with h2 | ⟨h2, h2p⟩ <;>
    first
      | (left; omega)
      | (right; exact ⟨by omega, by omega⟩)

/-- Ranker of the recommendation query: keep candidates with score at
least 1, order by score descending then price ascending, truncate to 10. -/
def rank_recommendations (scored : List Scored) : List Scored :=
  ((scored.filter (fun s => 1 ≤ s.score)).insertionSort recOrder).take 10

/-- Response assembly of src/main.py get_recommendations: both the empty
and the nonempty case respond with status success; the empty case only
adds an informational message. -/
def rec_response (results : List Scored) : String × List Scored :=
  if results.isEmpty then ("success", []) else ("success", results)

/-- C2: the ranked output keeps only candidates with score at least 1,
is sorted by score descending with price ascending as tie break, has at
most 10 entries, and an empty output is reported with status success. -/
theorem C2_ranker_threshold_sorted_limited (scored : List Scored) :
    (rank_recommendations scored).length ≤ 10 ∧
    (∀ s ∈ rank_recommendations scored, 1 ≤ s.score) ∧
    (rank_recommendations scored).Sorted recOrder ∧
    (rec_response (rank_recommendations scored)).1 = "success" := by
  refine ⟨?_, ?_, ?_, ?_⟩
  · exact List.length_take_le 10 _
  · intro s hs
    have h1 : s ∈ (scored.filter (fun s => 1 ≤ s.score)).insertionSort recOrder :=
      List.mem_of_mem_take hs
    have h2 : s ∈ scored.filter (fun s => 1 ≤ s.score) :=
      (List.mem_insertionSort recOrder).mp h1
    have h3 := (List.mem_filter.mp h2).2
    exact of_decide_eq_true h3
  · exact (List.sorted_insertionSort recOrder
      (scored.filter (fun s => 1 ≤ s.score))).sublist (List.take_sublist 10 _)
  · unfold rec_response
    split <;> rfl

/-- Witness for C2 at a concrete scored list that mixes scores below and
above the threshold. -/
theorem C2_ranker_threshold_sorted_limited_witness :
    (rank_recommendations
      [⟨demoRestaurant, 4⟩, ⟨demoRestaurant, 0⟩, ⟨demoRestaurant, -3⟩]).length ≤ 10 ∧
    (∀ s ∈ rank_recommendations
      [⟨demoRestaurant, 4⟩, ⟨demoRestaurant, 0⟩, ⟨demoRestaurant, -3⟩], 1 ≤ s.score) ∧
    (rank_recommendations
      [⟨demoRestaurant, 4⟩, ⟨demoRestaurant, 0⟩, ⟨demoRestaurant, -3⟩]).Sorted recOrder ∧
    (rec_response (rank_recommendations
      [⟨demoRestaurant, 4⟩, ⟨demoRestaurant, 0⟩, ⟨demoRestaurant, -3⟩])).1 = "success" :=
  C2_ranker_threshold_sorted_limited
    [⟨demoRestaurant, 4⟩, ⟨demoRestaurant, 0⟩, ⟨demoRestaurant, -3⟩]

/-! Candidate filter.  The personalized route filters on
r.precio_promedio <= u.budget before scoring; the advanced route builds
a dynamic WHERE clause from the request body, adding a condition only
when the corresponding request value is truthy in the Python sense. -/

/-- Budget pre-filter of the personalized recommendation query:
MATCH (r:Restaurant) WHERE r.precio_promedio <= u.budget. -/
def candidate_filter (u : User) (rs : List Restaurant) : List Restaurant :=
  rs.filter (fun r => r.price ≤ u.budget)

/-- Scoring stage applied to the filtered candidates, pairing each
candidate with its total score. -/
def scored_candidates (u : User) (rs : List Restaurant) : List Scored :=
  (candidate_filter u rs).map (fun r => ⟨r, total_score u r⟩)

/-- Full personalized pipeline: budget filter, scoring, threshold,
ordering and limit. -/
def get_recommendations_list (u : User) (rs : List Restaurant) : List Scored :=
  rank_recommendations (scored_candidates u rs)

/-- Request body of the advanced recommendation route.  Absent JSON keys
are represented by none; a present key carries its value. -/
structure AdvRequest where
  budget : Option Nat
  zone : Option String
  categories : Option (List String)
  pet_friendly : Option Bool
  kids_games : Option Bool
  accessible : Option Bool
  promotions : Option Bool
  min_service_level : Option Nat
deriving DecidableEq

/-- Python truthiness of an optional boolean value: data.get(key) is
truthy exactly when the key is present with value true. -/
def truthyB (o : Option Bool) : Bool := o.getD false

/-- Python truthiness of an optional string: absent keys and the empty
string are falsy. -/
def truthyS (o : Option String) : Bool :=
  match o with
  | none => false
  | some s => !s.isEmpty

/-- Python truthiness of an optional list: absent keys and the empty
list are falsy. -/
def truthyL (o : Option (List String)) : Bool :=
  match o with
  | none => false
  | some l => !l.isEmpty

/-- Python truthiness of an optional number: absent keys and zero are
falsy. -/
def truthyN (o : Option Nat) : Bool :=
  match o with
  | none => false
  | some n => n != 0

/-- Effective budget of the advanced route: data.get with default 1000. -/
def effBudget (req : AdvRequest) : Nat := req.budget.getD 1000

/-- Conjunction of the dynamically built WHERE conditions of
src/main.py get_advanced_recommendations, evaluated on one restaurant. -/
def adv_pred (req : AdvRequest) (r : Restaurant) : Bool :=
  decide (r.price ≤ effBudget req) &&
  (if truthyS req.zone then r.zones.contains (req.zone.getD "") else true) &&
  (if truthyL req.categories then
      (!r.categories.isEmpty) &&
        (req.categories.getD []).any (fun c => r.categories.contains c)
    else true) &&
  (if truthyB req.pet_friendly then r.pet_friendly else true) &&
  (if truthyB req.kids_games then r.kids_games else true) &&
  (if truthyB req.accessible then r.accessible else true) &&
  (if truthyB req.promotions then r.promotions else true) &&
  (if truthyN req.min_service_level then
      decide (req.min_service_level.getD 0 ≤ r.service_level)
    else true)

/-- Candidate set of the advanced route: MATCH (r:Restaurant) WHERE the
dynamically assembled clause. -/
def advanced_filter (req : AdvRequest) (rs : List Restaurant) : List Restaurant :=
  rs.filter (adv_pred req)

/-- C3: membership in the filtered candidate sets is exactly the price
ceiling conjoined with every explicitly specified constraint, absent
constraints imposing no restriction, and a restaurant over budget is
never scored. -/
theorem C3_candidate_filter_exact :
    (∀ u rs r, r ∈ candidate_filter u rs ↔ r ∈ rs ∧ r.price ≤ u.budget) ∧
    (∀ req rs r, r ∈ advanced_filter req rs ↔
      r ∈ rs ∧ r.price ≤ effBudget req ∧
      (∀ z, req.zone = some z → z ≠ "" → z ∈ r.zones) ∧
      (∀ l, req.categories = some l → l ≠ [] → ∃ c ∈ l, c ∈ r.categories) ∧
      (req.pet_friendly = some true → r.pet_friendly = true) ∧
      (req.kids_games = some true → r.kids_games = true) ∧
      (req.accessible = some true → r.accessible = true) ∧
      (req.promotions = some true → r.promotions = true) ∧
      (∀ m, req.min_service_level = some m → m ≠ 0 → m ≤ r.service_level)) ∧
    (∀ u rs s, s ∈ scored_candidates u rs → s.restaurant.price ≤ u.budget) := by
  refine ⟨?_, ?_, ?_⟩
  · intro u rs r
    simp [candidate_filter, List.mem_filter]
  · intro req rs r
    rw [advanced_filter, List.mem_filter]
    unfold adv_pred
    simp only [Bool.and_eq_true, decide_eq_true_eq]
    constructor
    · rintro ⟨hmem, ⟨⟨⟨⟨⟨⟨⟨hb, hz⟩, hc⟩, hpf⟩, hkg⟩, hac⟩, hpr⟩, hsl⟩⟩
      refine ⟨hmem, hb, ?_, ?_, ?_, ?_, ?_, ?_, ?_⟩
      · intro z hzq hzne
        rw [hzq] at hz
        have ht : truthyS (some z) = true := by
          unfold truthyS
          simp [Bool.eq_false_iff, String.isEmpty_iff, hzne]
        rw [if_pos ht] at hz
        simpa using hz
      · intro l hlq hlne
        rw [hlq] at hc
        have ht : truthyL (some l) = true := by
          unfold truthyL; simpa using hlne
        rw [if_pos ht] at hc
        simp only [Bool.and_eq_true, List.any_eq_true] at hc
        obtain ⟨-, c, hcl, hcr⟩ := hc
        exact ⟨c, hcl, by simpa using hcr⟩
      · intro hq; rw [hq] at hpf; simpa [truthyB] using hpf
      · intro hq; rw [hq] at hkg; simpa [truthyB] using hkg
      · intro hq; rw [hq] at hac; simpa [truthyB] using hac
      · intro hq; rw [hq] at hpr; simpa [truthyB] using hpr
      · intro m hmq hmne
        rw [hmq] at hsl
        have : truthyN (some m) = true := by
          unfold truthyN; simpa using hmne
        rw [if_pos this] at hsl
        simpa using hsl
    · rintro ⟨hmem, hb, hz, hc, hpf, hkg, hac, hpr, hsl⟩
      refine ⟨hmem, ⟨⟨⟨⟨⟨⟨⟨hb, ?_⟩, ?_⟩, ?_⟩, ?_⟩, ?_⟩, ?_⟩, ?_⟩⟩
      · cases hzq : req.zone with
        | none => simp [truthyS]
        | some z =>
          by_cases hzne : z = ""
          · subst hzne; simp [truthyS, String.isEmpty_iff]
          · have hmz := hz z hzq hzne
            have ht : truthyS (some z) = true := by
              unfold truthyS
              simp [Bool.eq_false_iff, String.isEmpty_iff, hzne]
            rw [if_pos ht]
            simpa [hzq] using hmz
      · cases hlq : req.categories with
        | none => simp [truthyL]
        | some l =>
          by_cases hlne : l = []
          · subst hlne; simp [truthyL]
          · obtain ⟨c, hcl, hcr⟩ := hc l hlq hlne
            have ht : truthyL (some l) = true := by
              unfold truthyL; simpa using hlne
            rw [if_pos ht]
            simp only [Bool.and_eq_true, List.any_eq_true]
            constructor
            · have hne : r.categories ≠ [] := List.ne_nil_of_mem hcr
              simp [List.isEmpty_iff, hne]
            · exact ⟨c, hcl, by simpa using hcr⟩
      · cases hq : req.pet_friendly with
        | none => simp [truthyB]
        | some b => cases b
                    · simp [truthyB]
                    · simpa [truthyB] using hpf hq
      · cases hq : req.kids_games with
        | none => simp [truthyB]
        | some b => cases b
                    · simp [truthyB]
                    · simpa [truthyB] using hkg hq
      · cases hq : req.accessible with
        | none => simp [truthyB]
        | some b => cases b
                    · simp [truthyB]
                    · simpa [truthyB] using hac hq
      · cases hq : req.promotions with
        | none => simp [truthyB]
        | some b => cases b
                    · simp [truthyB]
                    · simpa [truthyB] using hpr hq
      · cases hmq : req.min_service_level with
        | none => simp [truthyN]
        | some m =>
          by_cases hmne : m = 0
          · subst hmne; simp [truthyN]
          · have ht : truthyN (some m) = true := by
              unfold truthyN; simpa using hmne
            rw [if_pos ht]
            simpa using hsl m hmq hmne
  · intro u rs s hs
    unfold scored_candidates at hs
    obtain ⟨r, hr, hrs⟩ := List.mem_map.mp hs
    have := (List.mem_filter.mp hr).2
    rw [← hrs]
    exact of_decide_eq_true this

/-- Advanced request used by witnesses: budget 20 with no further
constraints. -/
def demoAdvRequest : AdvRequest :=
  { budget := some 20, zone := none, categories := none,
    pet_friendly := none, kids_games := none, accessible := none,
    promotions := none, min_service_level := none }

/-- Restaurant from the over-budget scenario of the specification:
price 25 against budget 20. -/
def demoExpensive : Restaurant :=
  { demoRestaurant with id := "r2", name := "Costoso", price := 25 }

/-- Witness for C3: with budget 20, the price 15 restaurant is a
candidate of both filters, and the price 25 restaurant is excluded from
the candidate set and hence never scored. -/
theorem C3_candidate_filter_exact_witness :
    demoRestaurant ∈ candidate_filter demoUser [demoRestaurant, demoExpensive] ∧
    demoRestaurant ∈ advanced_filter demoAdvRequest [demoRestaurant, demoExpensive] ∧
    (∀ s ∈ scored_candidates demoUser [demoRestaurant, demoExpensive],
      s.restaurant.price ≤ demoUser.budget) :=
  ⟨(C3_candidate_filter_exact.1 demoUser [demoRestaurant, demoExpensive]
      demoRestaurant).mpr (by decide),
   (C3_candidate_filter_exact.2.1 demoAdvRequest [demoRestaurant, demoExpensive]
      demoRestaurant).mpr
     ⟨by decide, by decide, by decide, by decide, by decide, by decide,
      by decide, by decide, by decide⟩,
   fun s hs => C3_candidate_filter_exact.2.2 demoUser
     [demoRestaurant, demoExpensive] s hs⟩

/-! Advanced route output.  The query orders by r.nivel_servicio DESC,
r.precio_promedio ASC, has no LIMIT and no score column. -/

/-- Ordering of ORDER BY r.nivel_servicio DESC, r.precio_promedio ASC. -/
def advOrder (a b : Restaurant) : Prop :=
  b.service_level < a.service_level ∨
    (a.service_level = b.service_level ∧ a.price ≤ b.price)

instance : DecidableRel advOrder := fun a b => by
  unfold advOrder; infer_instance

instance : IsTotal Restaurant advOrder := by
  constructor
  intro a b
  unfold advOrder
  rcases lt_trichotomy a.service_level b.service_level with h | h | h
  · right; left; exact h
  · rcases Nat.le_total a.price b.price with hp | hp
    · left; right; exact ⟨h, hp⟩
    · right; right; exact ⟨h.symm, hp⟩
  · left; left; exact h

instance : IsTrans Restaurant advOrder := by
  constructor
  intro a b c hab hbc
  unfold advOrder at *
  rcases hab with h1 | ⟨h1, h1p⟩ <;> rcases hbc with h2 | ⟨h2, h2p⟩ <;>
    first
      | (left; omega)
      | (right; exact ⟨by omega, by omega⟩)

/-- Row shape of the RETURN clause of the advanced route: restaurant_id,
restaurant_name, price, amenity flags, service_level and the collected
category, ambiance and zone lists. -/
structure AdvEntry where
  restaurant_id : String
  restaurant_name : String
  price : Nat
  pet_friendly : Bool
  kids_games : Bool
  accessible : Bool
  promotions : Bool
  service_level : Nat
  categories : List String
  ambiance : List String
  zones : List String
deriving DecidableEq

/-- Row of the advanced route for one restaurant. -/
def adv_entry (r : Restaurant) : AdvEntry :=
  { restaurant_id := r.id, restaurant_name := r.name, price := r.price,
    pet_friendly := r.pet_friendly, kids_games := r.kids_games,
    accessible := r.accessible, promotions := r.promotions,
    service_level := r.service_level, categories := r.categories,
    ambiance := r.ambiance, zones := r.zones }

/-- Row shape of the RETURN clause of the personalized route, which
additionally carries compatibility_score and wait_time. -/
structure RecEntry where
  restaurant_id : String
  restaurant_name : String
  price : Nat
  compatibility_score : Int
  pet_friendly : Bool
  kids_games : Bool
  accessible : Bool
  promotions : Bool
  service_level : Nat
  wait_time : Nat
  categories : List String
  ambiance : List String
  zones : List String
deriving DecidableEq

/-- Row of the personalized route for one scored restaurant. -/
def rec_entry (r : Restaurant) (score : Int) : RecEntry :=
  { restaurant_id := r.id, restaurant_name := r.name, price := r.price,
    compatibility_score := score, pet_friendly := r.pet_friendly,
    kids_games := r.kids_games, accessible := r.accessible,
    promotions := r.promotions, service_level := r.service_level,
    wait_time := r.wait_time, categories := r.categories,
    ambiance := r.ambiance, zones := r.zones }

/-- Fields a client needs to render a restaurant card: name, price,
boolean amenities and the category, ambiance and zone lists. -/
structure Card where
  name : String
  price : Nat
  pet_friendly : Bool
  kids_games : Bool
  accessible : Bool
  promotions : Bool
  categories : List String
  ambiance : List String
  zones : List String
deriving DecidableEq

/-- Card fields of an advanced route row. -/
def AdvEntry.card (e : AdvEntry) : Card :=
  { name := e.restaurant_name, price := e.price,
    pet_friendly := e.pet_friendly, kids_games := e.kids_games,
    accessible := e.accessible, promotions := e.promotions,
    categories := e.categories, ambiance := e.ambiance, zones := e.zones }

/-- Card fields of a personalized route row. -/
def RecEntry.card (e : RecEntry) : Card :=
  { name := e.restaurant_name, price := e.price,
    pet_friendly := e.pet_friendly, kids_games := e.kids_games,
    accessible := e.accessible, promotions := e.promotions,
    categories := e.categories, ambiance := e.ambiance, zones := e.zones }

/-- Full advanced route: dynamic filter, sort by service level
descending then price ascending, one row per restaurant, no scoring, no
threshold, no limit. -/
def get_advanced_recommendations (req : AdvRequest) (rs : List Restaurant) :
    List AdvEntry :=
  ((advanced_filter req rs).insertionSort advOrder).map adv_entry

/-- C5: the advanced route output is exactly the filtered restaurants
(a permutation, hence no acceptance threshold and no truncation),
ordered by service_level descending then price ascending, each row
carrying the same card fields as the personalized route would produce
for that restaurant; no compatibility score is computed. -/
theorem C5_advanced_filter_only_ordered_same_shape
    (req : AdvRequest) (rs : List Restaurant) :
    get_advanced_recommendations req rs =
      ((advanced_filter req rs).insertionSort advOrder).map adv_entry ∧
    ((advanced_filter req rs).insertionSort advOrder).Perm
      (advanced_filter req rs) ∧
    ((advanced_filter req rs).insertionSort advOrder).Sorted advOrder ∧
    (∀ r score, (adv_entry r).card = (rec_entry r score).card) := by
  refine ⟨rfl, List.perm_insertionSort advOrder _,
    List.sorted_insertionSort advOrder _, ?_⟩
  intro r score
  rfl

/-- C9: in the advanced route, passing a boolean constraint with value
false produces exactly the same result, both as candidate set and as
final route output, as omitting the key entirely, for each of
pet_friendly, kids_games, accessible and promotions. -/
theorem C9_false_boolean_constraint_is_no_constraint
    (req : AdvRequest) (rs : List Restaurant) :
    advanced_filter { req with pet_friendly := some false } rs =
      advanced_filter { req with pet_friendly := none } rs ∧
    advanced_filter { req with kids_games := some false } rs =
      advanced_filter { req with kids_games := none } rs ∧
    advanced_filter { req with accessible := some false } rs =
      advanced_filter { req with accessible := none } rs ∧
    advanced_filter { req with promotions := some false } rs =
      advanced_filter { req with promotions := none } rs ∧
    get_advanced_recommendations { req with pet_friendly := some false } rs =
      get_advanced_recommendations { req with pet_friendly := none } rs ∧
    get_advanced_recommendations { req with kids_games := some false } rs =
      get_advanced_recommendations { req with kids_games := none } rs ∧
    get_advanced_recommendations { req with accessible := some false } rs =
      get_advanced_recommendations { req with accessible := none } rs ∧
    get_advanced_recommendations { req with promotions := some false } rs =
      get_advanced_recommendations { req with promotions := none } rs :=
  ⟨rfl, rfl, rfl, rfl, rfl, rfl, rfl, rfl⟩

/-! Route handlers for identity lookups and the error helper.  Responses
are modelled as a triple of HTTP status code, status string and
user-facing message. -/

/-- Datastore contents visible to the lookup routes. -/
structure Store where
  users : List User
  restaurants : List Restaurant
deriving DecidableEq

/-- Handler of GET /users/(user_name) in src/main.py: the query matches
users by name; an empty result yields a 404 error with the message User
not found, otherwise a 200 success. -/
def get_user_details (st : Store) (user_name : String) : Nat × String × String :=
  let rows := st.users.filter (fun u => u.name = user_name)
  if rows.isEmpty then (404, "error", "User not found")
  else (200, "success", "")

/-- Handler of GET /restaurants/(restaurant_id) in src/main.py: matches
restaurants by id; empty result yields 404 with Restaurant not found. -/
def get_restaurant_details (st : Store) (restaurant_id : String) :
    Nat × String × String :=
  let rows := st.restaurants.filter (fun r => r.id = restaurant_id)
  if rows.isEmpty then (404, "error", "Restaurant not found")
  else (200, "success", "")

/-- Handler of GET /recommendations/(user_name) in src/main.py: the
query matches the user by name and computes the ranked list; when the
result list is empty, including the case of an unknown user for which
the MATCH produces no rows, the handler responds with status success and
an informational message, never with a 404. -/
def get_recommendations_route (st : Store) (user_name : String) :
    Nat × String × String :=
  let rows :=
    match st.users.find? (fun u => u.name = user_name) with
    | none => []
    | some u => get_recommendations_list u st.restaurants
  if rows.isEmpty then
    (200, "success", "No recommendations found matching your criteria")
  else (200, "success", "")

/-- Counterexample to C6: for the unknown identity ghost, the
personalized recommendations route responds with HTTP 200 and status
success, not with a NotFound error, so the claim that all three
operations report NotFound on unknown identities is false. -/
theorem C6_counterexample_recommendations_success_on_unknown_user :
    get_recommendations_route ⟨[], []⟩ "ghost" =
      (200, "success", "No recommendations found matching your criteria") ∧
    (get_recommendations_route ⟨[], []⟩ "ghost").2.1 ≠ "error" ∧
    (get_recommendations_route ⟨[], []⟩ "ghost").1 ≠ 404 := by
  refine ⟨rfl, ?_, ?_⟩ <;> decide

/-- C6 amended: unknown identities on the user details and restaurant
details routes produce a 404 NotFound error with a specific user-facing
message, while the personalized recommendations route responds to an
unknown user with a success response carrying an empty result list. -/
theorem C6_notfound_details_success_recommendations (st : Store) :
    (∀ nm, (∀ u ∈ st.users, u.name ≠ nm) →
      get_user_details st nm = (404, "error", "User not found")) ∧
    (∀ rid, (∀ r ∈ st.restaurants, r.id ≠ rid) →
      get_restaurant_details st rid = (404, "error", "Restaurant not found")) ∧
    (∀ nm, (∀ u ∈ st.users, u.name ≠ nm) →
      get_recommendations_route st nm =
        (200, "success", "No recommendations found matching your criteria")) := by
  refine ⟨?_, ?_, ?_⟩
  · intro nm h
    unfold get_user_details
    have : st.users.filter (fun u => u.name = nm) = [] := by
      rw [List.filter_eq_nil_iff]
      intro u hu
      simpa using h u hu
    rw [this]
    rfl
  · intro rid h
    unfold get_restaurant_details
    have : st.restaurants.filter (fun r => r.id = rid) = [] := by
      rw [List.filter_eq_nil_iff]
      intro r hr
      simpa using h r hr
    rw [this]
    rfl
  · intro nm h
    unfold get_recommendations_route
    have : st.users.find? (fun u => u.name = nm) = none := by
      rw [List.find?_eq_none]
      intro u hu
      simpa using h u hu
    rw [this]
    rfl

/-- Witness for the amended C6 at a store that contains one user and one
restaurant under different identities. -/
theorem C6_notfound_details_success_recommendations_witness :
    get_user_details ⟨[demoUser], [demoRestaurant]⟩ "ghost" =
      (404, "error", "User not found") ∧
    get_restaurant_details ⟨[demoUser], [demoRestaurant]⟩ "nope" =
      (404, "error", "Restaurant not found") ∧
    get_recommendations_route ⟨[demoUser], [demoRestaurant]⟩ "ghost" =
      (200, "success", "No recommendations found matching your criteria") :=
  ⟨(C6_notfound_details_success_recommendations ⟨[demoUser], [demoRestaurant]⟩).1
      "ghost" (by decide),
   (C6_notfound_details_success_recommendations ⟨[demoUser], [demoRestaurant]⟩).2.1
      "nope" (by decide),
   (C6_notfound_details_success_recommendations ⟨[demoUser], [demoRestaurant]⟩).2.2
      "ghost" (by decide)⟩

/-! Error helper of src/main.py and src/backend.py.  The helper logs the
context message with the exception text, and returns a 500 response
whose message is the same concatenation of context message and
exception text. -/

/-- Embedding of handle_error: the first component is the list of log
lines written, the second the HTTP response. -/
def handle_error (e : String) (message : String) :
    List String × (Nat × String × String) :=
  ([message ++ ": " ++ e], (500, "error", message ++ ": " ++ e))

/-- Counterexample to C7: the response message of handle_error contains
the raw exception text, here the final part after the colon, so
internal details do leak beyond the log into the client response. -/
theorem C7_counterexample_response_contains_exception :
    (handle_error "connection refused" "Failed to fetch users").2.2.2 =
      "Failed to fetch users: " ++ "connection refused" ∧
    (handle_error "connection refused" "Failed to fetch users").2.2.2 ≠
      "Internal error" := by
  refine ⟨rfl, ?_⟩
  decide

/-- C7 amended: every datastore failure is surfaced as an HTTP 500
error whose user-facing message is the context message concatenated
with the exception details, and the identical text is also written to
the log; the internals are therefore present in both the log and the
response rather than in the log alone. -/
theorem C7_handle_error_leaks_details_in_response (e message : String) :
    handle_error e message =
      ([message ++ ": " ++ e], (500, "error", message ++ ": " ++ e)) ∧
    (handle_error e message).2.2.2 = message ++ ": " ++ e ∧
    (handle_error e message).1 = [message ++ ": " ++ e] :=
  ⟨rfl, rfl, rfl⟩

/-! Registration route of src/backend.py.  The duplicate check and the
CREATE statement both use data username lower() and data email lower();
validation of email format and password strength precedes this portion
and is independent of the duplicate logic modelled here. -/

/-- Lowercasing applied by the registration route, character by
character over the character list of the string. -/
def lower (s : String) : String := ⟨s.data.map Char.toLower⟩

/-- User record as stored by the registration CREATE statement. -/
structure RegUser where
  username : String
  email : String
  name : String
deriving DecidableEq

/-- Outcome of the registration route: a 201 created response, or a 409
conflict for a duplicate username or a duplicate email. -/
inductive RegResult where
  | created (u : RegUser)
  | conflictUsername
  | conflictEmail
deriving DecidableEq

/-- True exactly on the two 409 conflict outcomes. -/
def RegResult.isConflict : RegResult → Bool
  | .created _ => false
  | .conflictUsername => true
  | .conflictEmail => true

/-- Users table visible to the registration route. -/
structure RegStore where
  users : List RegUser
deriving DecidableEq

/-- Registration: the check query matches stored users whose username
or email equals the lowercased request values; a match on the first row
yields a username or email conflict, otherwise the user is created with
the lowercased username and email. -/
def register (st : RegStore) (username email name : String) :
    RegResult × RegStore :=
  if (st.users.filter
      (fun u => u.username = lower username ∨ u.email = lower email)).isEmpty then
    (.created ⟨lower username, lower email, name⟩,
     ⟨st.users ++ [⟨lower username, lower email, name⟩]⟩)
  else if ((st.users.filter
      (fun u => u.username = lower username ∨ u.email = lower email)).headD
        ⟨"", "", ""⟩).username = lower username then
    (.conflictUsername, st)
  else (.conflictEmail, st)

theorem register_created_spec (st : RegStore) (username email name : String)
    (u : RegUser) (st2 : RegStore)
    (h : register st username email name = (.created u, st2)) :
    u.username = lower username ∧ u.email = lower email ∧
      st2.users = st.users ++ [u] := by
  unfold register at h
  cases hE : st.users.filter
      (fun v => v.username = lower username ∨ v.email = lower email) with
  | nil =>
    rw [hE] at h
    simp only [List.isEmpty_nil, if_true] at h
    simp only [Prod.mk.injEq, RegResult.created.injEq] at h
    obtain ⟨hu, hst⟩ := h
    subst hu
    exact ⟨rfl, rfl, by rw [← hst]⟩
  | cons v vs =>
    rw [hE] at h
    simp only [List.isEmpty_cons, Bool.false_eq_true, if_false] at h
    split at h <;> simp at h

theorem register_conflict_of_mem (st : RegStore)
    (username email name : String) (u : RegUser) (hu : u ∈ st.users)
    (hmatch : u.username = lower username ∨ u.email = lower email) :
    (register st username email name).1.isConflict = true ∧
      (register st username email name).2 = st := by
  unfold register
  cases hE : st.users.filter
      (fun v => v.username = lower username ∨ v.email = lower email) with
  | nil =>
    exfalso
    rw [List.filter_eq_nil_iff] at hE
    exact absurd hmatch (by simpa using hE u hu)
  | cons v vs =>
    simp only [List.isEmpty_cons, Bool.false_eq_true, if_false]
    constructor
    · split <;> rfl
    · split <;> rfl

/-- C10: registration stores the lowercased username and email; the
duplicate check compares the lowercased request values against stored
values; consequently, after a successful registration, a later request
whose username agrees with the first up to case, or whose email agrees
with the first up to case, is rejected with a conflict. -/
theorem C10_registration_lowercase_case_insensitive :
    (∀ st username email name u st2,
      register st username email name = (.created u, st2) →
      u.username = lower username ∧ u.email = lower email ∧
        st2.users = st.users ++ [u]) ∧
    (∀ st username email name u, u ∈ st.users →
      (u.username = lower username ∨ u.email = lower email) →
      (register st username email name).1.isConflict = true) ∧
    (∀ st u1 e1 n1 u st2 u2 e2 n2,
      register st u1 e1 n1 = (.created u, st2) →
      (lower u2 = lower u1 ∨ lower e2 = lower e1) →
      (register st2 u2 e2 n2).1.isConflict = true) := by
  refine ⟨register_created_spec, ?_, ?_⟩
  · intro st username email name u hu hmatch
    exact (register_conflict_of_mem st username email name u hu hmatch).1
  · intro st u1 e1 n1 u st2 u2 e2 n2 hreg hcase
    obtain ⟨hun, hem, hst⟩ := register_created_spec st u1 e1 n1 u st2 hreg
    have hu2 : u ∈ st2.users := by
      rw [hst]
      exact List.mem_append_right _ (List.mem_singleton.mpr rfl)
    have hmatch : u.username = lower u2 ∨ u.email = lower e2 := by
      rcases hcase with hc | hc
      · left; rw [hun, hc]
      · right; rw [hem, hc]
    exact (register_conflict_of_mem st2 u2 e2 n2 u hu2 hmatch).1

/-- Witness for C10: registering Ana then aNA, identical up to case,
hits the conflict branch. -/
theorem C10_registration_lowercase_case_insensitive_witness :
    (register (register ⟨[]⟩ "Ana" "Ana@Mail.com" "Ana").2
        "aNA" "other@mail.com" "Impostor").1.isConflict = true :=
  C10_registration_lowercase_case_insensitive.2.2
    ⟨[]⟩ "Ana" "Ana@Mail.com" "Ana"
    ⟨lower "Ana", lower "Ana@Mail.com", "Ana"⟩
    ⟨[⟨lower "Ana", lower "Ana@Mail.com", "Ana"⟩]⟩
    "aNA" "other@mail.com" "Impostor" rfl (Or.inl (by decide))

/-! Rating upsert and aggregation. -/

/-- Modelled from the spec: the rating write route and the rating
aggregation route are absent from the source files under src, which
contain only the recommendation, lookup, registration and preference
routes; sections 3 and 4.4 of the specification define Rating as an edge
from a user to a restaurant carrying a score, written with upsert
semantics, and the aggregator as mean and count over the edges of a
restaurant.  Edges are modelled as triples of user id, restaurant id and
score. -/
structure RatingStore where
  edges : List (String × String × Nat)
deriving DecidableEq

/-- Modelled from the spec: upsert write of section 3 and section 4.4 of
the specification; when an edge for the pair already exists its score is
replaced, otherwise one new edge is appended, so a repeat rating never
produces a duplicate edge. -/
def rate (st : RatingStore) (u r : String) (s : Nat) : RatingStore :=
  if st.edges.any (fun e => e.1 = u ∧ e.2.1 = r) then
    ⟨st.edges.map (fun e => if e.1 = u ∧ e.2.1 = r then (u, r, s) else e)⟩
  else ⟨st.edges ++ [(u, r, s)]⟩

/-- Rounding to two decimal places used by the aggregator contract. -/
def round2 (q : ℚ) : ℚ := (round (q * 100) : ℤ) / 100

/-- Modelled from the spec: aggregator of section 4.4; for a restaurant
with no ratings the average is absent with count 0, otherwise the mean
of the scores rounded to two decimals together with the count. -/
def rating_aggregate (st : RatingStore) (r : String) : Option ℚ × Nat :=
  let scores := (st.edges.filter (fun e => e.2.1 = r)).map (fun e => e.2.2)
  if scores.length = 0 then (none, 0)
  else (some (round2 ((scores.sum : ℚ) / scores.length)), scores.length)

theorem round2_natCast (n : ℕ) : round2 (n : ℚ) = (n : ℚ) := by
  unfold round2
  have h : ((n : ℚ) * 100) = ((n * 100 : ℕ) : ℚ) := by push_cast; ring
  rw [h, round_natCast]
  push_cast
  field_simp

/-- C8: starting from a store with no rating edges for restaurant r,
rating it twice by the same user with two scores leaves exactly one
edge for the pair, carrying the second score, and the aggregator
reports the latest score as the average with count 1. -/
theorem C8_rating_upsert_latest_score_count_one
    (st : RatingStore) (u r : String) (s1 s2 : Nat)
    (h : st.edges.filter (fun e => e.2.1 = r) = []) :
    (rate (rate st u r s1) u r s2).edges.filter
        (fun e => e.1 = u ∧ e.2.1 = r) = [(u, r, s2)] ∧
    rating_aggregate (rate (rate st u r s1) u r s2) r =
      (some (s2 : ℚ), 1) := by
  have hall : ∀ e ∈ st.edges, ¬(e.2.1 = r) := by
    intro e he
    have := (List.filter_eq_nil_iff.mp h) e he
    simpa using this
  have h1 : rate st u r s1 = ⟨st.edges ++ [(u, r, s1)]⟩ := by
    unfold rate
    rw [if_neg]
    simp only [List.any_eq_true, decide_eq_true_eq, not_exists]
    rintro e ⟨he, -, hr⟩
    exact hall e he hr
  have h2 : rate (rate st u r s1) u r s2 = ⟨st.edges ++ [(u, r, s2)]⟩ := by
    rw [h1]
    unfold rate
    rw [if_pos]
    · congr 1
      rw [List.map_append]
      congr 1
      · have hid : ∀ e ∈ st.edges,
            (if e.1 = u ∧ e.2.1 = r then (u, r, s2) else e) = id e := by
          intro e he
          rw [if_neg]
          · rfl
          · rintro ⟨-, hr⟩
            exact hall e he hr
        rw [List.map_congr_left hid, List.map_id]
      · simp
    · simp only [List.any_eq_true, decide_eq_true_eq]
      exact ⟨(u, r, s1), List.mem_append_right _ (List.mem_singleton.mpr rfl),
        rfl, rfl⟩
  rw [h2]
  have hfpair : (st.edges ++ [(u, r, s2)]).filter
      (fun e => e.1 = u ∧ e.2.1 = r) = [(u, r, s2)] := by
    rw [List.filter_append]
    have : st.edges.filter (fun e => e.1 = u ∧ e.2.1 = r) = [] := by
      rw [List.filter_eq_nil_iff]
      rintro e he hpe
      simp only [decide_eq_true_eq] at hpe
      exact hall e he hpe.2
    rw [this]
    simp
  have hfrest : (st.edges ++ [(u, r, s2)]).filter
      (fun e => e.2.1 = r) = [(u, r, s2)] := by
    rw [List.filter_append, h]
    simp
  refine ⟨hfpair, ?_⟩
  unfold rating_aggregate
  simp only [hfrest]
  simp only [List.map_cons, List.map_nil, List.length_cons, List.length_nil]
  rw [if_neg (by omega)]
  norm_num [round2_natCast]

/-- Witness for C8 at an empty store: after rating 2 then 5, one edge
with score 5 remains and the aggregate is average 5 with count 1. -/
theorem C8_rating_upsert_latest_score_count_one_witness :
    (rate (rate ⟨[]⟩ "u1" "r1" 2) "u1" "r1" 5).edges.filter
        (fun e => e.1 = "u1" ∧ e.2.1 = "r1") = [("u1", "r1", 5)] ∧
    rating_aggregate (rate (rate ⟨[]⟩ "u1" "r1" 2) "u1" "r1" 5) "r1" =
      (some ((5 : ℕ) : ℚ), 1) :=
  C8_rating_upsert_latest_score_count_one ⟨[]⟩ "u1" "r1" 2 5 rfl
